import Mathlib

/-!
Verification of the Echo Google-Business review-extraction scripts
(`echo_Google_Business_HTML_v1.5.py` and `echo_Google_Business_HTML_v1.7.py`).

The per-entry extraction logic of the scripts is embedded shallowly:

* Python strings are Lean `String`s, manipulated through their `List Char`
  data (Lean's byte-position based `String` functions are avoided so that
  everything reduces in the kernel).
* A rendered review card is a `Card` snapshot carrying the results of the
  DOM queries the scripts perform (`find_elements` by class / xpath); the
  document-wide `RfDO5c` span query lives in `Doc`.
* Selenium element lookups that the code wraps in `try/except` blocks for
  staleness are modelled as total reads; lookups that can genuinely be
  absent (`jslog` subtree, like-count span) are `Option`s.
* Dates are day numbers (`Int`); `datetime.today()` is a parameter `today`,
  `timedelta` subtraction is `Int` subtraction.
* The one floating-point computation, `lowercase_ratio < 0.05` with
  `lowercase_ratio = lc / (len + 1)`, is modelled by the exact integer
  comparison `20 * lc < len + 1`, which agrees with the Python float
  comparison for every string of realistic length (the two sides can only
  disagree when `|lc/(len+1) - 1/20| < 2^-54`, impossible for
  `len < 10^15`).
* Python exceptions that the scripts do NOT catch (the rating parse at
  `int(re.search(r'\d', rating).group())`) are modelled with `Except`:
  an `Except.error` propagating out of the per-card loop models the whole
  run aborting.
-/

/-! ### Python string primitives (char-list based) -/

/-- Whitespace as recognised by Python's `str.strip` / `str.split` / `\s`
(ASCII part; astral whitespace is not modelled). -/
def isPySpace (c : Char) : Bool :=
  c = ' ' || c = '\t' || c = '\n' || c = '\r' || c = '\x0b' || c = '\x0c'

/-- Python `str.strip()` on the character list. -/
def pyStripList (l : List Char) : List Char :=
  ((l.dropWhile isPySpace).reverse.dropWhile isPySpace).reverse

/-- Python `str.strip()`. -/
def pyStrip (s : String) : String :=
  String.mk (pyStripList s.toList)

/-- Python `str.lower()` (ASCII model of `str.lower`). -/
def pyLower (s : String) : String :=
  String.mk (s.toList.map Char.toLower)

/-- Python's substring test `needle in hay`. -/
def pyContains (needle hay : String) : Bool :=
  decide (needle.toList <:+: hay.toList)

/-- Python `" ".join(...)`. -/
def joinSpace (parts : List String) : String :=
  String.intercalate " " parts

/-- Helper for `splitWs`: current partial word is accumulated (reversed). -/
def splitWsAux : List Char → List Char → List (List Char)
  | [], acc => if acc = [] then [] else [acc.reverse]
  | c :: cs, acc =>
    if isPySpace c then
      if acc = [] then splitWsAux cs [] else acc.reverse :: splitWsAux cs []
    else splitWsAux cs (c :: acc)

/-- Python `str.split()` with no separator: runs of non-whitespace. -/
def splitWs (l : List Char) : List (List Char) :=
  splitWsAux l []

/-- Decimal value of a digit-character list (Python `int(...)` on a
digit-only string). -/
def digitsVal (l : List Char) : Nat :=
  l.foldl (fun a c => 10 * a + (c.toNat - 48)) 0

/-- Python `re.search(r'\d+', s)`: the first maximal digit run, as a number. -/
def firstDigitRun : List Char → Option Nat
  | [] => none
  | c :: cs =>
    if c.isDigit then some (digitsVal (c :: cs.takeWhile Char.isDigit))
    else firstDigitRun cs

/-- Python `re.search(r'\d', s)`: the first digit character, as a number. -/
def firstDigit : List Char → Option Nat
  | [] => none
  | c :: cs => if c.isDigit then some (c.toNat - 48) else firstDigit cs

/-! ### Decimal rendering (Python `str(n)` and `f"{n:03d}"`) -/

/-- Little-endian decimal digits; `fuel ≥ n` makes the recursion structural. -/
def decDigitsAux : Nat → Nat → List Nat
  | 0, _ => []
  | fuel + 1, n => if n = 0 then [] else n % 10 :: decDigitsAux fuel (n / 10)

/-- Digit `d` (0–9) as its ASCII character. -/
def decChar (d : Nat) : Char :=
  Char.ofNat (48 + d)

/-- Python `str(n)` for a natural number, as a character list. -/
def natToChars (n : Nat) : List Char :=
  if n = 0 then ['0'] else ((decDigitsAux n n).map decChar).reverse

/-- Python `f"{n:03d}"`: decimal rendering zero-padded to width 3. -/
def pad3 (n : Nat) : String :=
  String.mk (List.replicate (3 - (natToChars n).length) '0' ++ natToChars n)

/-! ### DOM snapshot model

A `Card` records, for one review card (`div[@data-review-id]`), the results
of every DOM query the per-entry code performs.  `underOwner` of an element
says whether `./ancestor-or-self::div[contains(@class,'CDe7pd')]` is
non-empty, i.e. the element sits inside (or is) the owner-reply block. -/

structure Elem where
  text : String
  classAttr : String
  underOwner : Bool
deriving DecidableEq

/-- A document-wide `RfDO5c` span (strategy 2 scans these globally);
`nearestReviewId` is the `data-review-id` of
`./ancestor::*[@data-review-id][1]`, `none` when no such ancestor exists
(the code's `except: continue`). -/
structure GElem where
  text : String
  classAttr : String
  underOwner : Bool
  nearestReviewId : Option String
deriving DecidableEq

/-- An image button under `div[contains(@class,"KtCyie")]` with its inline
`style` attribute. -/
structure ImgEl where
  styleAttr : String
deriving DecidableEq

structure Card where
  /-- `card.get_attribute("data-review-id")`. -/
  reviewId : String
  /-- `card.find_element(By.CLASS_NAME, 'd4r55').text`. -/
  reviewerName : String
  /-- `card.find_element(By.CLASS_NAME, 'kvMYJc').get_attribute('aria-label')`. -/
  ratingLabel : String
  /-- `card.find_element(By.CLASS_NAME, 'rsqaWe').text`. -/
  dateRaw : String
  /-- `card.find_elements(By.CLASS_NAME, 'wiI7pd')`. -/
  wiSpans : List Elem
  /-- `container.find_elements(By.XPATH, ".//*")` where `container` is the
  nearest `div[@data-review-id]` ancestor of the rating element, i.e. the
  card itself. -/
  descendants : List Elem
  /-- Whether `find_element(By.CLASS_NAME, "CDe7pd")` succeeds under the
  card (owner-reply block present). -/
  hasOwnerBlock : Bool
  /-- `RfDO5c` spans under `.//div[@jslog="127691"]`; `none` when that div
  is absent (strategy 4's `except: pass`). -/
  jslogSpans : Option (List Elem)
  /-- `.//div[contains(@class, "KtCyie")]/button[contains(@style, "background-image")]`. -/
  imgButtons : List ImgEl
  /-- `card.find_element(By.CLASS_NAME, "pkWtMe").text`, `none` when absent. -/
  likeText : Option String
  /-- Texts of `card.find_elements(By.CLASS_NAME, 'RfDO5c')` (tag blocks). -/
  tagTexts : List String
deriving DecidableEq

/-- Document-level state: `driver.find_elements(By.CLASS_NAME, 'RfDO5c')`. -/
structure Doc where
  rfdoSpans : List GElem
deriving DecidableEq

/-! ### v1.7 per-entry extraction (`echo_Google_Business_HTML_v1.7.py`) -/

/-- Lines 48–54: `clean_final_text`. -/
def clean_final_text (raw_text : String) : String :=
  if raw_text == "" then ""
  else if pyContains "response from the owner" (pyLower raw_text) then ""
  else pyStrip raw_text

/-- Lines 177–193: `parse_relative_date`; the result is an absolute day
number (`none` models the empty-string return). -/
def parse_relative_date (today : Int) (date_text : String) : Option Int :=
  match firstDigitRun date_text.toList with
  | none => none
  | some num =>
    if pyContains "day" date_text then some (today - (num : Int))
    else if pyContains "week" date_text then some (today - 7 * (num : Int))
    else if pyContains "month" date_text then some (today - 30 * (num : Int))
    else if pyContains "year" date_text then some (today - 365 * (num : Int))
    else none

/-- Lines 197–210: `is_valid_comment`. `\w` is modelled as ASCII
alphanumeric or underscore; `re.search(r"[a-zA-Z]", text)` as an ASCII
letter test. -/
def is_valid_comment (text : String) : Bool :=
  if text == "" || (pyStrip text).length < 5 then false
  else if pyContains "response from the owner" (pyLower text) then false
  else
    let cleaned := text.toList.filter (fun c => c.isAlphanum || c = '_')
    if cleaned = [] || cleaned.length < 3 then false
    else if (pyStrip text).toList.getLast? = some '…'
            && !(text.toList.any Char.isAlpha) then false
    else true

/-- Lines 223–231 / 243–251: the strategy-1 loop over `wiI7pd` spans — the
text of the first span not under the owner-reply block, else `""`. -/
def firstWiText (spans : List Elem) : String :=
  match spans.find? (fun sp => !sp.underOwner) with
  | some sp => sp.text
  | none => ""

/-- Lines 263–285: strategy 2 (`rfdo_global`).  Document-wide `RfDO5c`
spans whose nearest identified ancestor is this card and which are not
under an owner block are joined — but only those whose class attribute
does not contain `"RfDO5c"` survive the final generator filter. -/
def strategy2Text (card : Card) (doc : Doc) : String :=
  let fallback_spans := doc.rfdoSpans.filter
    (fun sp => sp.nearestReviewId == some card.reviewId && !sp.underOwner)
  joinSpace ((fallback_spans.filter
    (fun sp => !(pyStrip sp.text == "") && !(pyContains "RfDO5c" sp.classAttr))).map
      (fun sp => sp.text))

/-- Junk keywords of lines 326 (two private-use icon glyphs, then literal
UI tokens). -/
def junkKeywords : List String :=
  ["\uE5D4", "\uE838", "New", "Updated", "stars", "reviews"]

/-- Characters kept by `re.sub(r"[^a-zA-Z0-9\s.,!?']", "", text)`. -/
def keepChar (c : Char) : Bool :=
  c.isAlphanum || isPySpace c || c = '.' || c = ',' || c = '!' || c = '?' || c = '\''

/-- Lines 292–332: strategy 3 (`structural`), acting on the `(text, source)`
pair left by strategy 2.  Walks all card descendants outside the owner
block, joins their stripped texts, and clears the text again when the junk
filter fires (word count < 5, lowercase ratio < 0.05, or a junk keyword
occurs). -/
def structuralStep (card : Card) (prev : String × String) : String × String :=
  let found_texts := (card.descendants.filter
    (fun e => !(card.hasOwnerBlock && e.underOwner) && !(pyStrip e.text == ""))).map
      (fun e => pyStrip e.text)
  if found_texts = [] then ("", prev.2)
  else
    let text := joinSpace found_texts
    let cleaned := text.toList.filter keepChar
    let word_count := (splitWs cleaned).length
    let lc := (cleaned.filter Char.isLower).length
    let junk_detected := junkKeywords.any (fun kw => pyContains kw text)
    if word_count < 5 || decide (20 * lc < cleaned.length + 1) || junk_detected then
      ("", "structural")
    else (text, "structural")

/-- Lines 334–346: strategy 4 (`jslog127691`), acting on the pair left by
strategies 2–3.  Takes stripped texts of `RfDO5c` spans under the
`jslog="127691"` div whose class attribute does not contain `"RfDO5c"`. -/
def jslogStep (card : Card) (prev : String × String) : String × String :=
  match card.jslogSpans with
  | none => prev
  | some spans =>
    let extracted := (spans.filter
      (fun s => !(pyStrip s.text == "") && !(pyContains "RfDO5c" s.classAttr))).map
        (fun s => pyStrip s.text)
    if extracted = [] then prev else (joinSpace extracted, "jslog127691")

/-- Lines 262–346: the fallback block guarded by `if not text:` in the
`i >= 29` branch — strategy 2 always runs, strategies 3 and 4 run while the
text is still empty. -/
def fallbackV17 (card : Card) (doc : Doc) : String × String :=
  let r2 := (strategy2Text card doc, "rfdo_global")
  let r3 := if r2.1 = "" then structuralStep card r2 else r2
  if r3.1 = "" then jslogStep card r3 else r3

/-- Lines 217–346: the whole text-extraction chain for the card at loop
index `i`, returning `(text, source)`.  For `i < 29` only strategy 1 runs;
otherwise strategy 1 runs and, when its result is empty, the fallback
block. -/
def extractTextV17 (i : Nat) (card : Card) (doc : Doc) : String × String :=
  let temp_text := firstWiText card.wiSpans
  let r1 := if is_valid_comment temp_text then (temp_text, "wiI7pd") else ("", "none")
  if i < 29 then r1
  else if r1.1 = "" then fallbackV17 card doc
  else r1

/-! ### v1.7 structured fields -/

/-- Lines 371–383 inner part: extract the background-image URL from a
`style` attribute — substring check for `background-image`, then the
pattern `url\(["']?(https[^"')]+)["']?\)` matched at one position. -/
def urlMatchAt : List Char → Option String
  | 'u' :: 'r' :: 'l' :: '(' :: rest =>
    let rest1 := match rest with
      | c :: cs => if c = '"' || c = '\'' then cs else rest
      | [] => rest
    match rest1 with
    | 'h' :: 't' :: 't' :: 'p' :: 's' :: rest2 =>
      let run := rest2.takeWhile (fun c => !(c = '"' || c = '\'' || c = ')'))
      let rem := rest2.drop run.length
      if run = [] then none
      else
        match rem with
        | ')' :: _ => some (String.mk ('h' :: 't' :: 't' :: 'p' :: 's' :: run))
        | q :: ')' :: _ =>
          if q = '"' || q = '\'' then
            some (String.mk ('h' :: 't' :: 't' :: 'p' :: 's' :: run))
          else none
        | _ => none
    | _ => none
  | _ => none

/-- `re.search`: try the pattern at every position, first hit wins. -/
def urlSearch : List Char → Option String
  | [] => none
  | c :: rest =>
    match urlMatchAt (c :: rest) with
    | some u => some u
    | none => urlSearch rest

/-- Lines 373–383: `img_url` as computed from one button's style attribute
(`""`, i.e. `none`, when `background-image` is absent or the regex fails). -/
def extractImgUrl (style : String) : Option String :=
  if pyContains "background-image" style then urlSearch style.toList else none

/-- Python `f"img_{i+1:03d}_{idx+1}.jpg"`. -/
def imgName (i idx : Nat) : String :=
  "img_" ++ pad3 (i + 1) ++ "_" ++ String.mk (natToChars (idx + 1)) ++ ".jpg"

/-- Lines 371–394: the image loop, from image index `idx` on.  Every
element whose URL matches and is on `googleusercontent` is fetched and its
filename recorded; there is no per-entry cap. -/
def imageFilesAuxV17 (i : Nat) : Nat → List ImgEl → List String
  | _, [] => []
  | idx, el :: rest =>
    let next := imageFilesAuxV17 i (idx + 1) rest
    match extractImgUrl el.styleAttr with
    | some url => if pyContains "googleusercontent" url then imgName i idx :: next else next
    | none => next

/-- Image filenames recorded for the card at loop index `i`. -/
def imageFilesV17 (i : Nat) (elems : List ImgEl) : List String :=
  imageFilesAuxV17 i 0 elems

/-- Lines 397–404: like count — the `pkWtMe` text if present, stripped and
digit-only, else 0. -/
def likeCountOf (likeText : Option String) : Nat :=
  match likeText with
  | none => 0
  | some t =>
    let s := pyStrip t
    if !(s == "") && s.toList.all Char.isDigit then digitsVal s.toList else 0

/-- Lines 412–433: tag bucketing over the card's `RfDO5c` texts.  A text
equal (case-insensitively, after stripping) to a bucket label switches the
current bucket; other texts are appended to the current bucket, or
discarded while no label has been seen. -/
def tagBucketsAux : String → List String → List String × List String × List String × List String
  | _, [] => ([], [], [], [])
  | current_label, t :: ts =>
    let tag_text := pyStrip t
    let low := pyLower tag_text
    if low == "services" || low == "positive" || low == "negative" || low == "price" then
      tagBucketsAux low ts
    else
      let rest := tagBucketsAux current_label ts
      if current_label == "services" then (tag_text :: rest.1, rest.2.1, rest.2.2.1, rest.2.2.2)
      else if current_label == "positive" then (rest.1, tag_text :: rest.2.1, rest.2.2.1, rest.2.2.2)
      else if current_label == "negative" then (rest.1, rest.2.1, tag_text :: rest.2.2.1, rest.2.2.2)
      else if current_label == "price" then (rest.1, rest.2.1, rest.2.2.1, tag_text :: rest.2.2.2)
      else rest

/-- Tag buckets `(services, positive, negative, price)` for a card. -/
def tagBuckets (texts : List String) : List String × List String × List String × List String :=
  tagBucketsAux "" texts

/-! ### v1.7 record assembly and run model -/

/-- The v1.7 record (lines 443–461); list-valued fields are stored as the
`", ".join` strings the script exports. -/
structure RecordV17 where
  uid : String
  reviewer : String
  rating : String
  ratingValue : Nat
  dateRaw : String
  dateParsed : Option Int
  dateParseSuccess : Bool
  review : String
  imageCount : Nat
  imageFiles : String
  likeCount : Nat
  services : String
  positiveTags : String
  negativeTags : String
  priceTags : String
  ownerResponded : Bool
  clientName : String
deriving DecidableEq

/-- Lines 214–461: build one record for the card at loop index `i` with
`uidNum = len(data)+1`.  The only uncaught exception in this stretch is
`int(re.search(r'\d', rating).group())` when the rating label has no digit
(`re.search` returns `None` and `.group()` raises); it is modelled as
`Except.error`. -/
def buildRecordV17 (today : Int) (businessName : String) (i uidNum : Nat)
    (card : Card) (doc : Doc) : Except String RecordV17 :=
  match firstDigit card.ratingLabel.toList with
  | none => Except.error "AttributeError: rating label has no digit"
  | some numeric_rating =>
    let text := (extractTextV17 i card doc).1
    let parsed_date := parse_relative_date today card.dateRaw
    let image_files := imageFilesV17 i card.imgButtons
    let buckets := tagBuckets card.tagTexts
    Except.ok
      { uid := "R" ++ pad3 uidNum
        reviewer := card.reviewerName
        rating := card.ratingLabel
        ratingValue := numeric_rating
        dateRaw := card.dateRaw
        dateParsed := parsed_date
        dateParseSuccess := parsed_date.isSome
        review := clean_final_text text
        imageCount := image_files.length
        imageFiles := String.intercalate ", " image_files
        likeCount := likeCountOf card.likeText
        services := String.intercalate ", " buckets.1
        positiveTags := String.intercalate ", " buckets.2.1
        negativeTags := String.intercalate ", " buckets.2.2.1
        priceTags := String.intercalate ", " buckets.2.2.2
        ownerResponded := card.hasOwnerBlock
        clientName := businessName }

/-- The `for i, card in enumerate(unique_reviews.values())` loop from index
`i` on; an uncaught per-card exception aborts the whole loop (no records
are exported). -/
def processCardsAuxV17 (today : Int) (bn : String) (doc : Doc) :
    Nat → List Card → Except String (List RecordV17)
  | _, [] => Except.ok []
  | i, c :: cs =>
    match buildRecordV17 today bn i (i + 1) c doc with
    | Except.error e => Except.error e
    | Except.ok r =>
      match processCardsAuxV17 today bn doc (i + 1) cs with
      | Except.error e => Except.error e
      | Except.ok rest => Except.ok (r :: rest)

def processCardsV17 (today : Int) (bn : String) (doc : Doc) (cards : List Card) :
    Except String (List RecordV17) :=
  processCardsAuxV17 today bn doc 0 cards

/-- Lines 158–166: deduplication of the collected cards by `data-review-id`
(Python dict insertion: first occurrence wins, insertion order kept). -/
def dedupGo (seen : List String) : List Card → List Card
  | [] => []
  | c :: cs =>
    if c.reviewId ∈ seen then dedupGo seen cs
    else c :: dedupGo (c.reviewId :: seen) cs

def dedupById (cards : List Card) : List Card :=
  dedupGo [] cards

/-- Lines 103–461 condensed: the run.  A page-readiness timeout returns
early (lines 111–120); a missing scroll container leaves `unique_reviews`
undefined so the record loop raises `NameError` (lines 123–171 + 214);
otherwise the collected cards are deduplicated and processed, any uncaught
per-card exception aborting the run. -/
def runV17 (pageReady containerFound : Bool) (today : Int) (bn : String)
    (doc : Doc) (cards : List Card) : Except String (List RecordV17) :=
  if !pageReady then Except.error "TimeoutError: page readiness"
  else if !containerFound then Except.error "NameError: scroll container not found"
  else processCardsV17 today bn doc (dedupById cards)

/-! ### v1.7 incremental loader (lines 128–143) -/

/-- One `while scroll_attempts < max_scrolls and stable_scrolls < 3` loop;
`counts r` is the number of rendered `div[@data-review-id]` after the
scroll of round `r`.  `fuel` keeps `scroll_attempts < 60` structurally
(`fuel = 60 - scroll_attempts`). -/
def scrollLoop (counts : Nat → Nat) : Nat → Nat → Nat → Nat → Nat
  | 0, attempt, _, _ => attempt
  | fuel + 1, attempt, last, stable =>
    if stable < 3 then
      let c := counts attempt
      scrollLoop counts fuel (attempt + 1) c (if c = last then stable + 1 else 0)
    else attempt

/-- `scroll_attempts` when the loader loop exits (`max_scrolls = 60`,
`last_review_count = 0`, `stable_scrolls = 0` initially). -/
def loaderAttempts (counts : Nat → Nat) : Nat :=
  scrollLoop counts 60 0 0 0

/-- The C6 scenario: the rendered count grows in rounds 1–4 (1, 2, 3, 4)
and never afterwards. -/
def growThenStable : Nat → Nat :=
  fun r => min (r + 1) 4

/-! ### v1.5 transcription (`echo_Google_Business_HTML_v1.5.py`)

The v1.5 per-entry logic (lines 141–415 of that file) is transcribed
separately so the two scripts can be compared extensionally. -/

/-- Lines 39–45 of v1.5: `clean_final_text`. -/
def clean_final_textV15 (raw_text : String) : String :=
  if raw_text == "" then ""
  else if pyContains "response from the owner" (pyLower raw_text) then ""
  else pyStrip raw_text

/-- Lines 141–157 of v1.5: `parse_relative_date`. -/
def parse_relative_dateV15 (today : Int) (date_text : String) : Option Int :=
  match firstDigitRun date_text.toList with
  | none => none
  | some num =>
    if pyContains "day" date_text then some (today - (num : Int))
    else if pyContains "week" date_text then some (today - 7 * (num : Int))
    else if pyContains "month" date_text then some (today - 30 * (num : Int))
    else if pyContains "year" date_text then some (today - 365 * (num : Int))
    else none

/-- Lines 161–174 of v1.5: `is_valid_comment`. -/
def is_valid_commentV15 (text : String) : Bool :=
  if text == "" || (pyStrip text).length < 5 then false
  else if pyContains "response from the owner" (pyLower text) then false
  else
    let cleaned := text.toList.filter (fun c => c.isAlphanum || c = '_')
    if cleaned = [] || cleaned.length < 3 then false
    else if (pyStrip text).toList.getLast? = some '…'
            && !(text.toList.any Char.isAlpha) then false
    else true

/-- Lines 187–195 / 207–215 of v1.5: the strategy-1 span loop. -/
def firstWiTextV15 (spans : List Elem) : String :=
  match spans.find? (fun sp => !sp.underOwner) with
  | some sp => sp.text
  | none => ""

/-- Lines 227–249 of v1.5: strategy 2. -/
def strategy2TextV15 (card : Card) (doc : Doc) : String :=
  let fallback_spans := doc.rfdoSpans.filter
    (fun sp => sp.nearestReviewId == some card.reviewId && !sp.underOwner)
  joinSpace ((fallback_spans.filter
    (fun sp => !(pyStrip sp.text == "") && !(pyContains "RfDO5c" sp.classAttr))).map
      (fun sp => sp.text))

/-- Line 290 of v1.5: the junk keyword list (byte-identical to v1.7's). -/
def junkKeywordsV15 : List String :=
  ["\uE5D4", "\uE838", "New", "Updated", "stars", "reviews"]

/-- Lines 256–296 of v1.5: strategy 3. -/
def structuralStepV15 (card : Card) (prev : String × String) : String × String :=
  let found_texts := (card.descendants.filter
    (fun e => !(card.hasOwnerBlock && e.underOwner) && !(pyStrip e.text == ""))).map
      (fun e => pyStrip e.text)
  if found_texts = [] then ("", prev.2)
  else
    let text := joinSpace found_texts
    let cleaned := text.toList.filter keepChar
    let word_count := (splitWs cleaned).length
    let lc := (cleaned.filter Char.isLower).length
    let junk_detected := junkKeywordsV15.any (fun kw => pyContains kw text)
    if word_count < 5 || decide (20 * lc < cleaned.length + 1) || junk_detected then
      ("", "structural")
    else (text, "structural")

/-- Lines 298–310 of v1.5: strategy 4. -/
def jslogStepV15 (card : Card) (prev : String × String) : String × String :=
  match card.jslogSpans with
  | none => prev
  | some spans =>
    let extracted := (spans.filter
      (fun s => !(pyStrip s.text == "") && !(pyContains "RfDO5c" s.classAttr))).map
        (fun s => pyStrip s.text)
    if extracted = [] then prev else (joinSpace extracted, "jslog127691")

/-- Lines 226–310 of v1.5: the fallback block. -/
def fallbackV15 (card : Card) (doc : Doc) : String × String :=
  let r2 := (strategy2TextV15 card doc, "rfdo_global")
  let r3 := if r2.1 = "" then structuralStepV15 card r2 else r2
  if r3.1 = "" then jslogStepV15 card r3 else r3

/-- Lines 181–310 of v1.5: the extraction chain, with the same `i < 29`
position gating. -/
def extractTextV15 (i : Nat) (card : Card) (doc : Doc) : String × String :=
  let temp_text := firstWiTextV15 card.wiSpans
  let r1 := if is_valid_commentV15 temp_text then (temp_text, "wiI7pd") else ("", "none")
  if i < 29 then r1
  else if r1.1 = "" then fallbackV15 card doc
  else r1

/-- Lines 335–356 of v1.5: the image loop (identical to v1.7's). -/
def imageFilesAuxV15 (i : Nat) : Nat → List ImgEl → List String
  | _, [] => []
  | idx, el :: rest =>
    let next := imageFilesAuxV15 i (idx + 1) rest
    match extractImgUrl el.styleAttr with
    | some url => if pyContains "googleusercontent" url then imgName i idx :: next else next
    | none => next

def imageFilesV15 (i : Nat) (elems : List ImgEl) : List String :=
  imageFilesAuxV15 i 0 elems

/-- Lines 361–368 of v1.5: like count. -/
def likeCountOfV15 (likeText : Option String) : Nat :=
  match likeText with
  | none => 0
  | some t =>
    let s := pyStrip t
    if !(s == "") && s.toList.all Char.isDigit then digitsVal s.toList else 0

/-- Lines 376–397 of v1.5: tag bucketing. -/
def tagBucketsAuxV15 : String → List String → List String × List String × List String × List String
  | _, [] => ([], [], [], [])
  | current_label, t :: ts =>
    let tag_text := pyStrip t
    let low := pyLower tag_text
    if low == "services" || low == "positive" || low == "negative" || low == "price" then
      tagBucketsAuxV15 low ts
    else
      let rest := tagBucketsAuxV15 current_label ts
      if current_label == "services" then (tag_text :: rest.1, rest.2.1, rest.2.2.1, rest.2.2.2)
      else if current_label == "positive" then (rest.1, tag_text :: rest.2.1, rest.2.2.1, rest.2.2.2)
      else if current_label == "negative" then (rest.1, rest.2.1, tag_text :: rest.2.2.1, rest.2.2.2)
      else if current_label == "price" then (rest.1, rest.2.1, rest.2.2.1, tag_text :: rest.2.2.2)
      else rest

def tagBucketsV15 (texts : List String) : List String × List String × List String × List String :=
  tagBucketsAuxV15 "" texts

/-- The v1.5 record (lines 399–415): no `OwnerResponded`, no `ClientName`. -/
structure RecordV15 where
  uid : String
  reviewer : String
  rating : String
  ratingValue : Nat
  dateRaw : String
  dateParsed : Option Int
  dateParseSuccess : Bool
  review : String
  imageCount : Nat
  imageFiles : String
  likeCount : Nat
  services : String
  positiveTags : String
  negativeTags : String
  priceTags : String
deriving DecidableEq

/-- Lines 177–415 of v1.5: build one record. -/
def buildRecordV15 (today : Int) (i uidNum : Nat) (card : Card) (doc : Doc) :
    Except String RecordV15 :=
  match firstDigit card.ratingLabel.toList with
  | none => Except.error "AttributeError: rating label has no digit"
  | some numeric_rating =>
    let text := (extractTextV15 i card doc).1
    let parsed_date := parse_relative_dateV15 today card.dateRaw
    let image_files := imageFilesV15 i card.imgButtons
    let buckets := tagBucketsV15 card.tagTexts
    Except.ok
      { uid := "R" ++ pad3 uidNum
        reviewer := card.reviewerName
        rating := card.ratingLabel
        ratingValue := numeric_rating
        dateRaw := card.dateRaw
        dateParsed := parsed_date
        dateParseSuccess := parsed_date.isSome
        review := clean_final_textV15 text
        imageCount := image_files.length
        imageFiles := String.intercalate ", " image_files
        likeCount := likeCountOfV15 card.likeText
        services := String.intercalate ", " buckets.1
        positiveTags := String.intercalate ", " buckets.2.1
        negativeTags := String.intercalate ", " buckets.2.2.1
        priceTags := String.intercalate ", " buckets.2.2.2 }

/-- The fields shared by the v1.5 and v1.7 record schemas. -/
structure CommonFields where
  uid : String
  reviewer : String
  rating : String
  ratingValue : Nat
  dateRaw : String
  dateParsed : Option Int
  dateParseSuccess : Bool
  review : String
  imageCount : Nat
  imageFiles : String
  likeCount : Nat
  services : String
  positiveTags : String
  negativeTags : String
  priceTags : String
deriving DecidableEq

def commonOfV17 (r : RecordV17) : CommonFields :=
  { uid := r.uid, reviewer := r.reviewer, rating := r.rating,
    ratingValue := r.ratingValue, dateRaw := r.dateRaw,
    dateParsed := r.dateParsed, dateParseSuccess := r.dateParseSuccess,
    review := r.review, imageCount := r.imageCount,
    imageFiles := r.imageFiles, likeCount := r.likeCount,
    services := r.services, positiveTags := r.positiveTags,
    negativeTags := r.negativeTags, priceTags := r.priceTags }

def commonOfV15 (r : RecordV15) : CommonFields :=
  { uid := r.uid, reviewer := r.reviewer, rating := r.rating,
    ratingValue := r.ratingValue, dateRaw := r.dateRaw,
    dateParsed := r.dateParsed, dateParseSuccess := r.dateParseSuccess,
    review := r.review, imageCount := r.imageCount,
    imageFiles := r.imageFiles, likeCount := r.likeCount,
    services := r.services, positiveTags := r.positiveTags,
    negativeTags := r.negativeTags, priceTags := r.priceTags }

/-! ### Claim-side reference definitions -/

/-- Modelled from the spec: the Tagged-global-scan candidate as the spec
and claim C3 describe it — the single-space join of the texts of exactly
those document-wide tagged (`RfDO5c`) spans whose nearest identified
ancestor carries this entry's id and which are not under an owner-reply
block (no class-attribute filter). -/
def taggedGlobalScanSpec (card : Card) (doc : Doc) : String :=
  joinSpace ((doc.rfdoSpans.filter
    (fun sp => sp.nearestReviewId == some card.reviewId && !sp.underOwner)).map
      (fun sp => sp.text))

/-- Whether one image button's URL is accepted by the v1.7 filter
(`https` match on the expected host). -/
def acceptedImg (el : ImgEl) : Bool :=
  match extractImgUrl el.styleAttr with
  | some url => pyContains "googleusercontent" url
  | none => false

/-- The image files as a filter-and-map over all buttons: every accepted
button is fetched, in order, with no per-entry cap. -/
def imageFilesSpec (i : Nat) (elems : List ImgEl) : List String :=
  (List.enumFrom 0 elems).filterMap
    (fun p => if acceptedImg p.2 then some (imgName i p.1) else none)

/-! ### String lemmas -/

theorem pyContains_iff (a b : String) :
    pyContains a b = true ↔ a.toList <:+: b.toList := by
  simp [pyContains]

theorem within_of_starts {l₁ l₂ : List Char} (h : l₁ <+: l₂) : l₁ <:+: l₂ := by
  obtain ⟨t, ht⟩ := h
  exact ⟨[], t, by simpa using ht⟩

theorem within_of_ends {l₁ l₂ : List Char} (h : l₁ <:+ l₂) : l₁ <:+: l₂ := by
  obtain ⟨s, hs⟩ := h
  exact ⟨s, [], by simpa using hs⟩

theorem reverse_dropWhile_starts (p : Char → Bool) (l : List Char) :
    (l.reverse.dropWhile p).reverse <+: l := by
  obtain ⟨s, hs⟩ := List.dropWhile_suffix (l := l.reverse) p
  refine ⟨s.reverse, ?_⟩
  have := congrArg List.reverse hs
  simpa [List.reverse_append] using this

theorem pyStripList_within (l : List Char) : pyStripList l <:+: l := by
  unfold pyStripList
  have h1 : (l.dropWhile isPySpace) <:+ l := List.dropWhile_suffix _
  have h2 : ((l.dropWhile isPySpace).reverse.dropWhile isPySpace).reverse <+:
      l.dropWhile isPySpace := reverse_dropWhile_starts _ _
  exact List.IsInfix.trans (within_of_starts h2) (within_of_ends h1)

theorem toList_pyStrip (s : String) : (pyStrip s).toList = pyStripList s.toList := rfl

theorem toList_pyLower (s : String) : (pyLower s).toList = s.toList.map Char.toLower := rfl

/-- A substring of the lowered, stripped text is a substring of the lowered
text. -/
theorem pyContains_lower_strip {p s : String}
    (h : pyContains p (pyLower (pyStrip s)) = true) :
    pyContains p (pyLower s) = true := by
  rw [pyContains_iff] at h ⊢
  rw [toList_pyLower, toList_pyStrip] at h
  rw [toList_pyLower]
  exact List.IsInfix.trans h (List.IsInfix.map _ (pyStripList_within s.toList))

/-! ### Extraction-chain case analysis -/

theorem is_valid_comment_ne_empty {t : String} (h : is_valid_comment t = true) :
    ¬(t = "") := by
  intro he
  subst he
  simp [is_valid_comment] at h

/-- The v1.7 chain, split by the two gates: a valid strategy-1 candidate is
returned unconditionally; otherwise index `< 29` yields the empty result
and index `≥ 29` runs the fallback block. -/
theorem extractTextV17_cases (i : Nat) (card : Card) (doc : Doc) :
    extractTextV17 i card doc =
      if is_valid_comment (firstWiText card.wiSpans) then
        (firstWiText card.wiSpans, "wiI7pd")
      else if i < 29 then (("", "none") : String × String)
      else fallbackV17 card doc := by
  unfold extractTextV17
  cases hv : is_valid_comment (firstWiText card.wiSpans) with
  | true =>
    have ht := is_valid_comment_ne_empty hv
    by_cases hi : i < 29 <;> simp [hi, ht, hv]
  | false =>
    by_cases hi : i < 29 <;> simp [hi, hv]

theorem structuralStep_snd (card : Card) (prev : String × String) :
    (structuralStep card prev).2 = prev.2 ∨ (structuralStep card prev).2 = "structural" := by
  unfold structuralStep
  dsimp only
  split
  · exact Or.inl rfl
  · split
    · exact Or.inr rfl
    · exact Or.inr rfl

theorem jslogStep_snd (card : Card) (prev : String × String) :
    (jslogStep card prev).2 = prev.2 ∨ (jslogStep card prev).2 = "jslog127691" := by
  unfold jslogStep
  cases card.jslogSpans with
  | none => exact Or.inl rfl
  | some spans =>
    dsimp only
    split
    · exact Or.inl rfl
    · exact Or.inr rfl

theorem fallbackV17_snd (card : Card) (doc : Doc) :
    (fallbackV17 card doc).2 = "rfdo_global" ∨ (fallbackV17 card doc).2 = "structural" ∨
      (fallbackV17 card doc).2 = "jslog127691" := by
  unfold fallbackV17
  dsimp only
  split
  · split
    · rcases jslogStep_snd card
        (structuralStep card (strategy2Text card doc, "rfdo_global")) with hj | hj
      · rw [hj]
        rcases structuralStep_snd card (strategy2Text card doc, "rfdo_global") with hs | hs
        · rw [hs]; exact Or.inl rfl
        · rw [hs]; exact Or.inr (Or.inl rfl)
      · rw [hj]; exact Or.inr (Or.inr rfl)
    · rcases structuralStep_snd card (strategy2Text card doc, "rfdo_global") with hs | hs
      · rw [hs]; exact Or.inl rfl
      · rw [hs]; exact Or.inr (Or.inl rfl)
  · exact Or.inl rfl

/-! ### Loader lemmas -/

theorem scrollLoop_le (counts : Nat → Nat) :
    ∀ fuel attempt last stable, scrollLoop counts fuel attempt last stable ≤ attempt + fuel := by
  intro fuel
  induction fuel with
  | zero => intro attempt last stable; simp [scrollLoop]
  | succ fuel ih =>
    intro attempt last stable
    unfold scrollLoop
    split
    · dsimp only
      have := ih (attempt + 1) (counts attempt)
        (if counts attempt = last then stable + 1 else 0)
      omega
    · omega

theorem scrollLoop_stable_exits (counts : Nat → Nat) (fuel attempt last : Nat) :
    scrollLoop counts fuel attempt last 3 = attempt := by
  cases fuel <;> simp [scrollLoop]

/-! ### Dedup lemmas -/

theorem dedupGo_sublist : ∀ (cs : List Card) (seen : List String),
    List.Sublist (dedupGo seen cs) cs := by
  intro cs
  induction cs with
  | nil => intro seen; simp [dedupGo]
  | cons c cs ih =>
    intro seen
    unfold dedupGo
    split
    · exact (ih seen).cons c
    · exact (ih (c.reviewId :: seen)).cons₂ c

theorem dedupGo_spec : ∀ (cs : List Card) (seen : List String),
    (∀ c ∈ dedupGo seen cs, c.reviewId ∉ seen) ∧
      ((dedupGo seen cs).map (fun c => c.reviewId)).Nodup := by
  intro cs
  induction cs with
  | nil => intro seen; simp [dedupGo]
  | cons c cs ih =>
    intro seen
    unfold dedupGo
    split
    · exact ih seen
    · next hmem =>
      obtain ⟨ihNotin, ihNodup⟩ := ih (c.reviewId :: seen)
      constructor
      · intro x hx
        rcases List.mem_cons.mp hx with rfl | hx2
        · exact hmem
        · have := ihNotin _ hx2
          intro hxs
          exact this (List.mem_cons_of_mem _ hxs)
      · rw [List.map_cons, List.nodup_cons]
        refine ⟨?_, ihNodup⟩
        intro hc
        obtain ⟨x, hx, hxe⟩ := List.mem_map.mp hc
        have := ihNotin _ hx
        rw [hxe] at this
        exact this (List.mem_cons_self _ _)

theorem dedupGo_find? : ∀ (cs : List Card) (seen : List String) (id : String),
    id ∉ seen →
      List.find? (fun c => c.reviewId == id) (dedupGo seen cs) =
        List.find? (fun c => c.reviewId == id) cs := by
  intro cs
  induction cs with
  | nil => intro seen id _; simp [dedupGo]
  | cons c cs ih =>
    intro seen id hid
    unfold dedupGo
    split
    · next hmem =>
      have hne : (c.reviewId == id) = false := by
        rw [beq_eq_false_iff_ne]
        intro he
        exact hid (he ▸ hmem)
      rw [List.find?_cons, hne, ih seen id hid]
    · next hmem =>
      cases hb : c.reviewId == id with
      | true => rw [List.find?_cons, hb, List.find?_cons, hb]
      | false =>
        rw [List.find?_cons, hb, List.find?_cons, hb]
        refine ih (c.reviewId :: seen) id ?_
        intro hmem2
        rcases List.mem_cons.mp hmem2 with he | hmem3
        · exact beq_eq_false_iff_ne.mp hb he.symm
        · exact hid hmem3

/-! ### Record-loop lemmas -/

theorem buildRecordV17_isOk (today : Int) (bn : String) (i u : Nat)
    (card : Card) (doc : Doc) :
    (buildRecordV17 today bn i u card doc).isOk =
      (firstDigit card.ratingLabel.toList).isSome := by
  unfold buildRecordV17
  cases firstDigit card.ratingLabel.toList <;> rfl

theorem buildRecordV17_uid (today : Int) (bn : String) (i u : Nat)
    (card : Card) (doc : Doc) (r : RecordV17)
    (h : buildRecordV17 today bn i u card doc = Except.ok r) :
    r.uid = "R" ++ pad3 u := by
  unfold buildRecordV17 at h
  cases hd : firstDigit card.ratingLabel.toList <;> rw [hd] at h
  · exact absurd h (by simp)
  · injection h with h
    rw [← h]

theorem processCardsAuxV17_isOk (today : Int) (bn : String) (doc : Doc) :
    ∀ (cs : List Card) (i : Nat),
      (processCardsAuxV17 today bn doc i cs).isOk =
        cs.all (fun c => (firstDigit c.ratingLabel.toList).isSome) := by
  intro cs
  induction cs with
  | nil => intro i; rfl
  | cons c cs ih =>
    intro i
    simp only [List.all_cons]
    have hstep : processCardsAuxV17 today bn doc i (c :: cs) =
        match buildRecordV17 today bn i (i + 1) c doc with
        | Except.error e => Except.error e
        | Except.ok r =>
          match processCardsAuxV17 today bn doc (i + 1) cs with
          | Except.error e => Except.error e
          | Except.ok rest => Except.ok (r :: rest) := rfl
    rw [hstep]
    cases hb : buildRecordV17 today bn i (i + 1) c doc with
    | error e =>
      have hv : (firstDigit c.ratingLabel.toList).isSome = false := by
        rw [← buildRecordV17_isOk today bn i (i + 1) c doc, hb]; rfl
      rw [hv, Bool.false_and]
      rfl
    | ok r =>
      have hv : (firstDigit c.ratingLabel.toList).isSome = true := by
        rw [← buildRecordV17_isOk today bn i (i + 1) c doc, hb]; rfl
      rw [hv, Bool.true_and, ← ih (i + 1)]
      cases hrest : processCardsAuxV17 today bn doc (i + 1) cs with
      | error e => rfl
      | ok rest => rfl

theorem processCardsAuxV17_uids (today : Int) (bn : String) (doc : Doc) :
    ∀ (cs : List Card) (i : Nat) (rs : List RecordV17),
      processCardsAuxV17 today bn doc i cs = Except.ok rs →
        rs.map (fun r => r.uid) =
          (List.range cs.length).map (fun j => "R" ++ pad3 (i + j + 1)) := by
  intro cs
  induction cs with
  | nil =>
    intro i rs h
    injection h with h
    rw [← h]
    rfl
  | cons c cs ih =>
    intro i rs h
    unfold processCardsAuxV17 at h
    cases hb : buildRecordV17 today bn i (i + 1) c doc <;> rw [hb] at h
    · exact absurd h (by simp)
    · cases hrest : processCardsAuxV17 today bn doc (i + 1) cs <;> rw [hrest] at h
      · exact absurd h (by simp)
      · injection h with h
        rw [← h, List.map_cons, buildRecordV17_uid today bn i (i + 1) c doc _ hb,
          ih (i + 1) _ hrest, List.length_cons, List.range_succ_eq_map,
          List.map_cons, List.map_map]
        refine congrArg₂ _ (by rw [Nat.add_zero]) ?_
        refine List.map_congr_left ?_
        intro j _
        simp only [Function.comp_apply, Nat.succ_eq_add_one]
        refine congrArg _ (congrArg pad3 (by omega))

/-! ### Decimal rendering lemmas -/

theorem decDigitsAux_zero (fuel : Nat) : decDigitsAux fuel 0 = [] := by
  cases fuel <;> rfl

/-- Value of a little-endian digit list. -/
def ofDec : List Nat → Nat
  | [] => 0
  | d :: ds => d + 10 * ofDec ds

theorem ofDec_decDigitsAux : ∀ fuel n, n ≤ fuel → ofDec (decDigitsAux fuel n) = n := by
  intro fuel
  induction fuel with
  | zero =>
    intro n hn
    have : n = 0 := Nat.le_zero.mp hn
    subst this
    rfl
  | succ fuel ih =>
    intro n hn
    by_cases h0 : n = 0
    · subst h0; rfl
    · have hdiv : n / 10 ≤ fuel := by omega
      have hstep : decDigitsAux (fuel + 1) n = n % 10 :: decDigitsAux fuel (n / 10) := by
        simp [decDigitsAux, h0]
      rw [hstep]
      show n % 10 + 10 * ofDec (decDigitsAux fuel (n / 10)) = n
      rw [ih _ hdiv]
      exact Nat.mod_add_div n 10

theorem decDigitsAux_lt : ∀ fuel n d, d ∈ decDigitsAux fuel n → d < 10 := by
  intro fuel
  induction fuel with
  | zero => intro n d hd; simp [decDigitsAux] at hd
  | succ fuel ih =>
    intro n d hd
    by_cases h0 : n = 0
    · subst h0; rw [decDigitsAux_zero] at hd; simp at hd
    · have hstep : decDigitsAux (fuel + 1) n = n % 10 :: decDigitsAux fuel (n / 10) := by
        simp [decDigitsAux, h0]
      rw [hstep] at hd
      rcases List.mem_cons.mp hd with he | hd2
      · subst he; exact Nat.mod_lt _ (by norm_num)
      · exact ih _ _ hd2

theorem decDigitsAux_getLast : ∀ fuel n, n ≠ 0 → n ≤ fuel →
    ∃ d, (decDigitsAux fuel n).getLast? = some d ∧ d ≠ 0 ∧ d < 10 := by
  intro fuel
  induction fuel with
  | zero => intro n h0 hn; exact absurd (Nat.le_zero.mp hn) h0
  | succ fuel ih =>
    intro n h0 hn
    have hstep : decDigitsAux (fuel + 1) n = n % 10 :: decDigitsAux fuel (n / 10) := by
      simp [decDigitsAux, h0]
    rw [hstep]
    by_cases hq : n / 10 = 0
    · rw [hq, decDigitsAux_zero]
      exact ⟨n % 10, rfl, by omega, by omega⟩
    · obtain ⟨d, hd, hd0, hd10⟩ := ih (n / 10) hq (by omega)
      refine ⟨d, ?_, hd0, hd10⟩
      have hne : decDigitsAux fuel (n / 10) ≠ [] := by
        intro hnil
        rw [hnil] at hd
        simp at hd
      obtain ⟨y, ys, hys⟩ := List.exists_cons_of_ne_nil hne
      rw [hys, List.getLast?_cons_cons, ← hys, hd]

theorem decChar_val : ∀ d, d < 10 → (decChar d).toNat - 48 = d := by decide

theorem decChar_ne_zeroChar : ∀ d, d < 10 → d ≠ 0 → (decChar d == '0') = false := by decide

theorem map_decChar_cancel : ∀ l : List Nat, (∀ d ∈ l, d < 10) →
    (l.map decChar).map (fun c => c.toNat - 48) = l := by
  intro l
  induction l with
  | nil => intro _; rfl
  | cons d ds ih =>
    intro hb
    rw [List.map_cons, List.map_cons, decChar_val d (hb d (List.mem_cons_self _ _)),
      ih (fun x hx => hb x (List.mem_cons_of_mem _ hx))]

theorem natToChars_inj {a b : Nat} (ha : a ≠ 0) (hb : b ≠ 0)
    (h : natToChars a = natToChars b) : a = b := by
  unfold natToChars at h
  rw [if_neg ha, if_neg hb] at h
  have h1 := List.reverse_injective h
  have h2 := congrArg (List.map (fun c => c.toNat - 48)) h1
  rw [map_decChar_cancel _ (fun d hd => decDigitsAux_lt a a d hd),
    map_decChar_cancel _ (fun d hd => decDigitsAux_lt b b d hd)] at h2
  have h3 := congrArg ofDec h2
  rw [ofDec_decDigitsAux a a le_rfl, ofDec_decDigitsAux b b le_rfl] at h3
  exact h3

theorem natToChars_head (n : Nat) (h0 : n ≠ 0) :
    ∃ c rest, natToChars n = c :: rest ∧ (c == '0') = false := by
  obtain ⟨d, hd, hd0, hd10⟩ := decDigitsAux_getLast n n h0 le_rfl
  have hmapLast : ((decDigitsAux n n).map decChar).getLast? = some (decChar d) := by
    rw [List.getLast?_map, hd]
    rfl
  have hhead : ((decDigitsAux n n).map decChar).reverse.head? = some (decChar d) := by
    rw [List.head?_reverse, hmapLast]
  unfold natToChars
  rw [if_neg h0]
  cases hrev : ((decDigitsAux n n).map decChar).reverse with
  | nil => rw [hrev] at hhead; simp at hhead
  | cons c rest =>
    rw [hrev] at hhead
    simp only [List.head?_cons, Option.some.injEq] at hhead
    exact ⟨c, rest, rfl, hhead ▸ decChar_ne_zeroChar d hd10 hd0⟩

theorem dropWhile_rep_zero : ∀ (k : Nat) (l : List Char),
    List.dropWhile (fun c => c == '0') (List.replicate k '0' ++ l) =
      List.dropWhile (fun c => c == '0') l := by
  intro k
  induction k with
  | zero => intro l; rfl
  | succ k ih =>
    intro l
    rw [List.replicate_succ, List.cons_append, List.dropWhile_cons]
    simp only [beq_self_eq_true, if_true]
    exact ih l

theorem pad3_inj {a b : Nat} (ha : a ≠ 0) (hb : b ≠ 0) (h : pad3 a = pad3 b) : a = b := by
  have hl : List.replicate (3 - (natToChars a).length) '0' ++ natToChars a =
      List.replicate (3 - (natToChars b).length) '0' ++ natToChars b :=
    congrArg String.data h
  have h2 := congrArg (List.dropWhile (fun c => c == '0')) hl
  rw [dropWhile_rep_zero, dropWhile_rep_zero] at h2
  obtain ⟨ca, ra, hca, hca0⟩ := natToChars_head a ha
  obtain ⟨cb, rb, hcb, hcb0⟩ := natToChars_head b hb
  rw [hca, hcb, List.dropWhile_cons, List.dropWhile_cons] at h2
  simp only [hca0, hcb0, if_false, Bool.false_eq_true] at h2
  rw [← hca, ← hcb] at h2
  exact natToChars_inj ha hb h2

/-- The `j ↦ "R" ++ pad3 (j + 1)` uid assignment is injective. -/
theorem uidString_inj : Function.Injective (fun j : Nat => "R" ++ pad3 (j + 1)) := by
  intro x y h
  have hd : ("R" ++ pad3 (x + 1)).data = ("R" ++ pad3 (y + 1)).data := congrArg String.data h
  rw [String.data_append, String.data_append] at hd
  have hdd := List.append_cancel_left hd
  have hp : pad3 (x + 1) = pad3 (y + 1) := String.ext hdd
  have := pad3_inj (Nat.succ_ne_zero x) (Nat.succ_ne_zero y) hp
  omega

/-! ### Image-loop lemmas -/

theorem imageFilesAuxV17_spec (i : Nat) : ∀ (elems : List ImgEl) (idx : Nat),
    imageFilesAuxV17 i idx elems =
      (List.enumFrom idx elems).filterMap
        (fun p => if acceptedImg p.2 then some (imgName i p.1) else none) := by
  intro elems
  induction elems with
  | nil => intro idx; rfl
  | cons el rest ih =>
    intro idx
    have hstep : imageFilesAuxV17 i idx (el :: rest) =
        match extractImgUrl el.styleAttr with
        | some url =>
          if pyContains "googleusercontent" url then
            imgName i idx :: imageFilesAuxV17 i (idx + 1) rest
          else imageFilesAuxV17 i (idx + 1) rest
        | none => imageFilesAuxV17 i (idx + 1) rest := rfl
    have henum : List.enumFrom idx (el :: rest) = (idx, el) :: List.enumFrom (idx + 1) rest := rfl
    rw [hstep, henum, List.filterMap_cons]
    cases hu : extractImgUrl el.styleAttr with
    | none =>
      have ha : acceptedImg el = false := by unfold acceptedImg; rw [hu]
      simp only [ha, if_false, Bool.false_eq_true]
      exact ih (idx + 1)
    | some url =>
      have ha : acceptedImg el = pyContains "googleusercontent" url := by
        unfold acceptedImg; rw [hu]
      cases hg : pyContains "googleusercontent" url with
      | false =>
        rw [hg] at ha
        simp only [ha, hg, if_false, Bool.false_eq_true]
        exact ih (idx + 1)
      | true =>
        rw [hg] at ha
        simp only [ha, hg, if_true]
        rw [ih (idx + 1)]

/-! ### Final-cleanup lemmas -/

theorem clean_final_text_eq (s : String) :
    clean_final_text s =
      if pyContains "response from the owner" (pyLower s) = true then "" else pyStrip s := by
  by_cases hs : s = ""
  · subst hs; decide
  · have hsb : (s == "") = false := beq_eq_false_iff_ne.mpr hs
    unfold clean_final_text
    rw [hsb]
    simp only [Bool.false_eq_true, if_false]

theorem clean_final_text_no_phrase (s : String) :
    pyContains "response from the owner" (pyLower (clean_final_text s)) = false := by
  rw [clean_final_text_eq]
  by_cases h : pyContains "response from the owner" (pyLower s) = true
  · rw [if_pos h]; decide
  · rw [if_neg h]
    cases hc : pyContains "response from the owner" (pyLower (pyStrip s)) with
    | false => rfl
    | true => exact absurd (pyContains_lower_strip hc) h

theorem buildRecordV17_review (today : Int) (bn : String) (i u : Nat)
    (card : Card) (doc : Doc) (r : RecordV17)
    (h : buildRecordV17 today bn i u card doc = Except.ok r) :
    r.review = clean_final_text ((extractTextV17 i card doc).1) := by
  unfold buildRecordV17 at h
  cases hd : firstDigit card.ratingLabel.toList <;> rw [hd] at h
  · exact absurd h (by simp)
  · injection h with h
    rw [← h]

/-- Modelled on the audit-comparison need only: strategy 2's final
generator filter discards every span whose class attribute contains
`"RfDO5c"`; since the spans were found by class name `RfDO5c`, their class
attribute always contains it, so the strategy always yields `""`. -/
theorem strategy2Text_empty_of_classes (card : Card) (doc : Doc)
    (hwf : ∀ sp ∈ doc.rfdoSpans, pyContains "RfDO5c" sp.classAttr = true) :
    strategy2Text card doc = "" := by
  unfold strategy2Text
  have hnil : (doc.rfdoSpans.filter
      (fun sp => sp.nearestReviewId == some card.reviewId && !sp.underOwner)).filter
        (fun sp => !(pyStrip sp.text == "") && !(pyContains "RfDO5c" sp.classAttr)) = [] := by
    rw [List.filter_eq_nil_iff]
    intro sp hsp
    have hmem := List.mem_of_mem_filter hsp
    simp [hwf sp hmem]
  dsimp only
  rw [hnil]
  rfl

/-! ### Concrete fixtures -/

def blankCard : Card :=
  { reviewId := "r0", reviewerName := "Ann", ratingLabel := "5 stars",
    dateRaw := "a day ago", wiSpans := [], descendants := [],
    hasOwnerBlock := false, jslogSpans := none, imgButtons := [],
    likeText := none, tagTexts := [] }

def emptyDoc : Doc := ⟨[]⟩

/-- A card whose strategy-1 candidate is valid. -/
def w1Card : Card :=
  { blankCard with
    reviewId := "w1"
    wiSpans := [⟨"Absolutely wonderful experience", "wiI7pd", false⟩] }

/-- A card with no strategy-1 text but a structural candidate that passes
both the strategy-3 junk filter and the shared validity predicate. -/
def c1Card : Card :=
  { blankCard with
    reviewId := "c1"
    descendants := [⟨"this is a genuinely lovely place to visit", "", false⟩] }

/-- A card whose structural candidate contains the owner-reply phrase. -/
def c2Card : Card :=
  { blankCard with
    reviewId := "c2"
    descendants := [⟨"they posted a response from the owner below here", "", false⟩] }

/-- A card with no strategy-1 text whose document holds one matching tagged
span. -/
def c3Card : Card := { blankCard with reviewId := "r1" }

def c3Doc : Doc :=
  ⟨[⟨"Great service and lovely staff overall", "RfDO5c", false, some "r1"⟩]⟩

/-- A card whose rating label carries no digit. -/
def c4BadCard : Card :=
  { blankCard with
    reviewId := "bad"
    ratingLabel := "unrated review" }

def c4GoodCard : Card :=
  { blankCard with reviewId := "good", ratingLabel := "5 stars" }

/-- Two image buttons, both with accepted `googleusercontent` URLs. -/
def c5Elems : List ImgEl :=
  [⟨"background-image: url(\"https://lh3.googleusercontent.com/p/img1\")"⟩,
   ⟨"background-image: url(\"https://lh3.googleusercontent.com/p/img2\")"⟩]

/-- A card whose raw date has no leading integer. -/
def c8Card : Card :=
  { blankCard with
    reviewId := "c8"
    dateRaw := "today" }

/-! ### Claim C1 -/

/-- C1 (counterexample): the chain is not attempted uniformly for every
collected entry — the same card with an invalid strategy-1 candidate and a
structural candidate that passes the shared validity predicate yields
nothing at position 0 (strategies 2–4 are never attempted there, because of
the `i < 29` gate) but yields the structural text at position 29.  Under
the claim, both positions would have to return the valid structural
candidate. -/
theorem c1_counterexample :
    extractTextV17 0 c1Card emptyDoc = ("", "none") ∧
    extractTextV17 29 c1Card emptyDoc =
      ("this is a genuinely lovely place to visit", "structural") ∧
    is_valid_comment "this is a genuinely lovely place to visit" = true := by
  refine ⟨by decide, by decide, by decide⟩

/-- C1 (amended): a valid strategy-1 candidate is always returned with
provenance `wiI7pd` and strategies 2–4 are then never invoked; when the
strategy-1 candidate fails the shared validity predicate, entries at
position `< 29` return the empty result without attempting strategies 2–4,
and only entries at position `≥ 29` fall through to the strategy 2–4 block
(which is gated on emptiness, not on the shared predicate). -/
theorem c1_amended :
    (∀ (i : Nat) (card : Card) (doc : Doc),
      is_valid_comment (firstWiText card.wiSpans) = true →
        extractTextV17 i card doc = (firstWiText card.wiSpans, "wiI7pd")) ∧
    (∀ (i : Nat) (card : Card) (doc : Doc),
      is_valid_comment (firstWiText card.wiSpans) = false → i < 29 →
        extractTextV17 i card doc = ("", "none")) ∧
    (∀ (i : Nat) (card : Card) (doc : Doc),
      is_valid_comment (firstWiText card.wiSpans) = false → 29 ≤ i →
        extractTextV17 i card doc = fallbackV17 card doc) := by
  refine ⟨?_, ?_, ?_⟩
  · intro i card doc hv
    rw [extractTextV17_cases]
    simp [hv]
  · intro i card doc hv hi
    rw [extractTextV17_cases]
    simp [hv, hi]
  · intro i card doc hv hi
    rw [extractTextV17_cases]
    simp [hv, Nat.not_lt.mpr hi]

/-- C1 (witness): the three amended cases at concrete inputs. -/
theorem c1_amended_witness :
    extractTextV17 0 w1Card emptyDoc = ("Absolutely wonderful experience", "wiI7pd") ∧
    extractTextV17 0 c1Card emptyDoc = ("", "none") ∧
    extractTextV17 29 c1Card emptyDoc = fallbackV17 c1Card emptyDoc :=
  ⟨c1_amended.1 0 w1Card emptyDoc (by decide),
   c1_amended.2.1 0 c1Card emptyDoc (by decide) (by decide),
   c1_amended.2.2 29 c1Card emptyDoc (by decide) (by decide)⟩

/-! ### Claim C2 -/

/-- C2 (counterexample): a structural (strategy 3) candidate containing the
owner-reply phrase — hence failing the shared validity predicate — is
accepted by the chain instead of falling through to the next strategy. -/
theorem c2_counterexample :
    extractTextV17 29 c2Card emptyDoc =
      ("they posted a response from the owner below here", "structural") ∧
    is_valid_comment "they posted a response from the owner below here" = false := by
  refine ⟨by decide, by decide⟩

/-- C2 (amended): the shared validity predicate gates only strategy 1's
candidate: text attributed to `wiI7pd` always satisfies it, and when the
strategy-1 candidate fails it the chain never reports `wiI7pd`; strategies
2–4 accept on non-emptiness (plus their own filters), not on the shared
predicate. -/
theorem c2_amended :
    (∀ (i : Nat) (card : Card) (doc : Doc),
      (extractTextV17 i card doc).2 = "wiI7pd" →
        is_valid_comment (extractTextV17 i card doc).1 = true) ∧
    (∀ (i : Nat) (card : Card) (doc : Doc),
      is_valid_comment (firstWiText card.wiSpans) = false →
        (extractTextV17 i card doc).2 ≠ "wiI7pd") := by
  constructor
  · intro i card doc hsrc
    rw [extractTextV17_cases] at hsrc ⊢
    cases hv : is_valid_comment (firstWiText card.wiSpans) with
    | true => simp [hv]
    | false =>
      rw [hv] at hsrc
      simp only [Bool.false_eq_true, if_false] at hsrc
      by_cases hi : i < 29
      · rw [if_pos hi] at hsrc
        exact absurd hsrc (by decide)
      · rw [if_neg hi] at hsrc
        rcases fallbackV17_snd card doc with hs | hs | hs <;>
          rw [hs] at hsrc <;> exact absurd hsrc (by decide)
  · intro i card doc hv hsrc
    rw [extractTextV17_cases] at hsrc
    rw [hv] at hsrc
    simp only [Bool.false_eq_true, if_false] at hsrc
    by_cases hi : i < 29
    · rw [if_pos hi] at hsrc
      exact absurd hsrc (by decide)
    · rw [if_neg hi] at hsrc
      rcases fallbackV17_snd card doc with hs | hs | hs <;>
        rw [hs] at hsrc <;> exact absurd hsrc (by decide)

/-- C2 (witness): a valid strategy-1 candidate is attributed to `wiI7pd`
and satisfies the predicate; an invalid one forces a different provenance. -/
theorem c2_amended_witness :
    is_valid_comment ((extractTextV17 0 w1Card emptyDoc).1) = true ∧
    (extractTextV17 3 c1Card emptyDoc).2 ≠ "wiI7pd" :=
  ⟨c2_amended.1 0 w1Card emptyDoc (by decide),
   c2_amended.2 3 c1Card emptyDoc (by decide)⟩

/-! ### Claim C3 -/

/-- C3 (code bug): on a document whose only tagged span matches the entry
(id `r1`, not under an owner block, non-empty text), the Tagged-global-scan
strategy produces `""` instead of the join of the matching texts: its final
generator filter `"RfDO5c" not in span.get_attribute("class")` excludes
every span that the surrounding `find_elements(By.CLASS_NAME, 'RfDO5c')`
query can return, so the strategy is unconditionally empty.  The claimed
join (`taggedGlobalScanSpec`) is non-empty and would even pass the shared
validity predicate. -/
theorem c3_code_bug :
    strategy2Text c3Card c3Doc = "" ∧
    taggedGlobalScanSpec c3Card c3Doc = "Great service and lovely staff overall" ∧
    is_valid_comment "Great service and lovely staff overall" = true := by
  refine ⟨by decide, by decide, by decide⟩

/-! ### Claim C4 -/

/-- C4 (counterexample): a rating label with no digit is not an entry-scoped
failure — it aborts the whole run (the `int(re.search(r'\d', rating).group())`
call is outside every `try`), so a later well-formed card produces no
record either, while a run with only the well-formed card succeeds. -/
theorem c4_counterexample :
    runV17 true true 0 "biz" emptyDoc [c4BadCard, c4GoodCard] =
      Except.error "AttributeError: rating label has no digit" ∧
    (runV17 true true 0 "biz" emptyDoc [c4GoodCard]).isOk = true := by
  exact ⟨rfl, rfl⟩

/-- C4 (amended): the run succeeds exactly when the page became ready, the
scroll container was found, and every deduplicated card's rating label
contains a digit; failures inside the text chain, like-count, tag, image
and owner-flag reads never abort anything (those reads are total in the
chain), but an undigited rating label aborts the entire run rather than
yielding an entry-scoped failure. -/
theorem c4_amended :
    ∀ (pr cf : Bool) (today : Int) (bn : String) (doc : Doc) (cards : List Card),
      (runV17 pr cf today bn doc cards).isOk =
        (pr && cf &&
          (dedupById cards).all (fun c => (firstDigit c.ratingLabel.toList).isSome)) := by
  intro pr cf today bn doc cards
  unfold runV17
  cases pr with
  | false => rfl
  | true =>
    cases cf with
    | false => rfl
    | true =>
      simp only [Bool.not_true, Bool.false_eq_true, if_false, Bool.true_and]
      exact processCardsAuxV17_isOk today bn doc (dedupById cards) 0

/-! ### Claim C5 -/

/-- C5 (counterexample): two image buttons of the same entry both carry
accepted `googleusercontent` URLs and both are fetched and recorded — there
is no first-image-only cap in the loop. -/
theorem c5_counterexample :
    imageFilesV17 0 c5Elems = ["img_001_1.jpg", "img_001_2.jpg"] := by
  decide

/-- C5 (amended): an image URL is accepted only if the style attribute
yields an `https` URL containing `googleusercontent` (others are
discarded), and every accepted image of the entry is fetched and recorded
in order — not only the first. -/
theorem c5_amended : ∀ (i : Nat) (elems : List ImgEl),
    imageFilesV17 i elems = imageFilesSpec i elems :=
  fun i elems => imageFilesAuxV17_spec i elems 0

/-! ### Claim C6 -/

/-- C6: the loader always terminates within the 60-attempt cap; it exits
immediately once the stability counter reaches 3; and on a document whose
rendered count grows in rounds 1–4 and is constant afterwards it performs
exactly 7 rounds (4 growth + 3 stable), not 60. -/
theorem c6_loader :
    (∀ counts : Nat → Nat, loaderAttempts counts ≤ 60) ∧
    (∀ (counts : Nat → Nat) (fuel attempt last : Nat),
      scrollLoop counts fuel attempt last 3 = attempt) ∧
    loaderAttempts growThenStable = 7 := by
  refine ⟨fun counts => ?_, fun c f a l => scrollLoop_stable_exits c f a l, by decide⟩
  have := scrollLoop_le counts 60 0 0 0
  simpa [loaderAttempts] using this

/-! ### Claim C7 -/

/-- C7: after deduplication each `entryId` occurs at most once (the map of
ids is duplicate-free), the deduplicated list is a sublist of the collected
one (first-seen order preserved), the first-seen card for every id is the
one kept, and when the record loop completes the uids are exactly
`R001, R002, …` in that order — pairwise distinct, one per deduplicated
card. -/
theorem c7_dedup_uids :
    ∀ (cards : List Card) (today : Int) (bn : String) (doc : Doc),
      ((dedupById cards).map (fun c => c.reviewId)).Nodup ∧
      List.Sublist (dedupById cards) cards ∧
      (∀ id : String,
        List.find? (fun c => c.reviewId == id) (dedupById cards) =
          List.find? (fun c => c.reviewId == id) cards) ∧
      (match processCardsV17 today bn doc (dedupById cards) with
       | Except.ok rs =>
          rs.map (fun r => r.uid) =
            (List.range rs.length).map (fun j => "R" ++ pad3 (j + 1)) ∧
          (rs.map (fun r => r.uid)).Nodup ∧
          rs.length = (dedupById cards).length
       | Except.error _ => True) := by
  intro cards today bn doc
  refine ⟨(dedupGo_spec cards []).2, dedupGo_sublist cards [], ?_, ?_⟩
  · intro id
    exact dedupGo_find? cards [] id (by simp)
  · cases h : processCardsV17 today bn doc (dedupById cards) with
    | error e => trivial
    | ok rs =>
      have huids := processCardsAuxV17_uids today bn doc (dedupById cards) 0 rs h
      have huids2 : rs.map (fun r => r.uid) =
          (List.range (dedupById cards).length).map (fun j => "R" ++ pad3 (j + 1)) := by
        rw [huids]
        refine List.map_congr_left ?_
        intro j _
        rw [Nat.zero_add]
      have hlen : rs.length = (dedupById cards).length := by
        have := congrArg List.length huids2
        simpa using this
      refine ⟨?_, ?_, hlen⟩
      · rw [huids2, hlen]
      · rw [huids2]
        exact List.Nodup.map uidString_inj (List.nodup_range _)

/-! ### Claim C8 -/

/-- C8: relative-date parsing takes the first integer and the first
matching unit keyword: `"3 weeks ago"` parses to `today − 21` (so
`dateParseSuccess` is true); `n` months yield `today − 30·n` and `n` years
`today − 365·n`; a text with no integer (such as `"today"`) or with no
recognised unit parses to nothing, and such a failure still yields a
record (with empty `dateParsed` and `dateParseSuccess = false`) rather than
aborting the entry. -/
theorem c8_dates : ∀ today : Int,
    parse_relative_date today "3 weeks ago" = some (today - 21) ∧
    parse_relative_date today "today" = none ∧
    (∀ (s : String) (n : Nat), firstDigitRun s.toList = some n →
      pyContains "day" s = false → pyContains "week" s = false →
      pyContains "month" s = true →
      parse_relative_date today s = some (today - 30 * (n : Int))) ∧
    (∀ (s : String) (n : Nat), firstDigitRun s.toList = some n →
      pyContains "day" s = false → pyContains "week" s = false →
      pyContains "month" s = false → pyContains "year" s = true →
      parse_relative_date today s = some (today - 365 * (n : Int))) ∧
    (∀ s : String, firstDigitRun s.toList = none →
      parse_relative_date today s = none) ∧
    (∀ (s : String) (n : Nat), firstDigitRun s.toList = some n →
      pyContains "day" s = false → pyContains "week" s = false →
      pyContains "month" s = false → pyContains "year" s = false →
      parse_relative_date today s = none) ∧
    (match buildRecordV17 today "b" 0 1 c8Card emptyDoc with
     | Except.ok r => r.dateParsed = none ∧ r.dateParseSuccess = false
     | Except.error _ => False) := by
  intro today
  refine ⟨rfl, rfl, ?_, ?_, ?_, ?_, ?_⟩
  · intro s n h hd hw hm
    have h2 : firstDigitRun s.data = some n := h
    simp [parse_relative_date, h2, hd, hw, hm]
  · intro s n h hd hw hm hy
    have h2 : firstDigitRun s.data = some n := h
    simp [parse_relative_date, h2, hd, hw, hm, hy]
  · intro s h
    have h2 : firstDigitRun s.data = none := h
    simp [parse_relative_date, h2]
  · intro s n h hd hw hm hy
    have h2 : firstDigitRun s.data = some n := h
    simp [parse_relative_date, h2, hd, hw, hm, hy]
  · exact ⟨rfl, rfl⟩

/-- C8 (witness): month, year, unit-less and integer-less inputs at
concrete strings. -/
theorem c8_dates_witness :
    parse_relative_date 0 "5 months ago" = some (0 - 150) ∧
    parse_relative_date 0 "2 years ago" = some (0 - 730) ∧
    parse_relative_date 0 "7 bananas ago" = none ∧
    parse_relative_date 0 "mid June" = none :=
  ⟨(c8_dates 0).2.2.1 "5 months ago" 5 (by decide) (by decide) (by decide) (by decide),
   (c8_dates 0).2.2.2.1 "2 years ago" 2 (by decide) (by decide) (by decide) (by decide)
     (by decide),
   (c8_dates 0).2.2.2.2.2.1 "7 bananas ago" 7 (by decide) (by decide) (by decide)
     (by decide) (by decide),
   (c8_dates 0).2.2.2.2.1 "mid June" (by decide)⟩

/-! ### Claim C9 -/

theorem imageFilesAuxV15_eq (i : Nat) : ∀ (elems : List ImgEl) (idx : Nat),
    imageFilesAuxV15 i idx elems = imageFilesAuxV17 i idx elems := by
  intro elems
  induction elems with
  | nil => intro idx; rfl
  | cons el rest ih =>
    intro idx
    show (match extractImgUrl el.styleAttr with
      | some url =>
        if pyContains "googleusercontent" url then
          imgName i idx :: imageFilesAuxV15 i (idx + 1) rest
        else imageFilesAuxV15 i (idx + 1) rest
      | none => imageFilesAuxV15 i (idx + 1) rest) =
      (match extractImgUrl el.styleAttr with
      | some url =>
        if pyContains "googleusercontent" url then
          imgName i idx :: imageFilesAuxV17 i (idx + 1) rest
        else imageFilesAuxV17 i (idx + 1) rest
      | none => imageFilesAuxV17 i (idx + 1) rest)
    rw [ih (idx + 1)]

theorem tagBucketsAuxV15_eq : ∀ (ts : List String) (label : String),
    tagBucketsAuxV15 label ts = tagBucketsAux label ts := by
  intro ts
  induction ts with
  | nil => intro label; rfl
  | cons t ts ih =>
    intro label
    show (let tag_text := pyStrip t
      let low := pyLower tag_text
      if low == "services" || low == "positive" || low == "negative" || low == "price" then
        tagBucketsAuxV15 low ts
      else
        let rest := tagBucketsAuxV15 label ts
        if label == "services" then (tag_text :: rest.1, rest.2.1, rest.2.2.1, rest.2.2.2)
        else if label == "positive" then (rest.1, tag_text :: rest.2.1, rest.2.2.1, rest.2.2.2)
        else if label == "negative" then (rest.1, rest.2.1, tag_text :: rest.2.2.1, rest.2.2.2)
        else if label == "price" then (rest.1, rest.2.1, rest.2.2.1, tag_text :: rest.2.2.2)
        else rest) =
      (let tag_text := pyStrip t
      let low := pyLower tag_text
      if low == "services" || low == "positive" || low == "negative" || low == "price" then
        tagBucketsAux low ts
      else
        let rest := tagBucketsAux label ts
        if label == "services" then (tag_text :: rest.1, rest.2.1, rest.2.2.1, rest.2.2.2)
        else if label == "positive" then (rest.1, tag_text :: rest.2.1, rest.2.2.1, rest.2.2.2)
        else if label == "negative" then (rest.1, rest.2.1, tag_text :: rest.2.2.1, rest.2.2.2)
        else if label == "price" then (rest.1, rest.2.1, rest.2.2.1, tag_text :: rest.2.2.2)
        else rest)
    simp only [ih]

theorem firstWiTextV15_eq (spans : List Elem) : firstWiTextV15 spans = firstWiText spans := by
  unfold firstWiTextV15 firstWiText
  cases spans.find? (fun sp => !sp.underOwner) <;> rfl

theorem is_valid_commentV15_eq (t : String) : is_valid_commentV15 t = is_valid_comment t := rfl

theorem clean_final_textV15_eq (t : String) : clean_final_textV15 t = clean_final_text t := rfl

theorem parse_relative_dateV15_eq (today : Int) (s : String) :
    parse_relative_dateV15 today s = parse_relative_date today s := rfl

theorem strategy2TextV15_eq (card : Card) (doc : Doc) :
    strategy2TextV15 card doc = strategy2Text card doc := rfl

theorem junkKeywordsV15_eq : junkKeywordsV15 = junkKeywords := rfl

theorem structuralStepV15_eq (card : Card) (prev : String × String) :
    structuralStepV15 card prev = structuralStep card prev := by
  unfold structuralStepV15 structuralStep
  simp only [junkKeywordsV15_eq]

theorem jslogStepV15_eq (card : Card) (prev : String × String) :
    jslogStepV15 card prev = jslogStep card prev := by
  unfold jslogStepV15 jslogStep
  cases card.jslogSpans <;> rfl

theorem fallbackV15_eq (card : Card) (doc : Doc) :
    fallbackV15 card doc = fallbackV17 card doc := by
  unfold fallbackV15 fallbackV17
  simp only [strategy2TextV15_eq, structuralStepV15_eq, jslogStepV15_eq]

theorem extractTextV15_eq (i : Nat) (card : Card) (doc : Doc) :
    extractTextV15 i card doc = extractTextV17 i card doc := by
  unfold extractTextV15 extractTextV17
  simp only [firstWiTextV15_eq, is_valid_commentV15_eq, fallbackV15_eq]

theorem likeCountOfV15_eq (lt : Option String) : likeCountOfV15 lt = likeCountOf lt := by
  unfold likeCountOfV15 likeCountOf
  cases lt <;> rfl

/-- C9: every per-entry computation present in both scripts is
extensionally identical between v1.5 and v1.7: date parsing, the validity
predicate, the final owner-reply cleanup, the full four-strategy chain
(with its `i < 29` position gating), image filtering, like-count reading
and tag bucketing agree on all inputs, and the two record builders agree on
every shared record field from the same card snapshot. -/
theorem c9_extraction_equivalence :
    (∀ (today : Int) (s : String),
      parse_relative_dateV15 today s = parse_relative_date today s) ∧
    (∀ t : String, is_valid_commentV15 t = is_valid_comment t) ∧
    (∀ t : String, clean_final_textV15 t = clean_final_text t) ∧
    (∀ (i : Nat) (card : Card) (doc : Doc),
      extractTextV15 i card doc = extractTextV17 i card doc) ∧
    (∀ (i : Nat) (elems : List ImgEl), imageFilesV15 i elems = imageFilesV17 i elems) ∧
    (∀ lt : Option String, likeCountOfV15 lt = likeCountOf lt) ∧
    (∀ texts : List String, tagBucketsV15 texts = tagBuckets texts) ∧
    (∀ (today : Int) (bn : String) (i u : Nat) (card : Card) (doc : Doc),
      Except.map commonOfV15 (buildRecordV15 today i u card doc) =
        Except.map commonOfV17 (buildRecordV17 today bn i u card doc)) := by
  refine ⟨parse_relative_dateV15_eq, is_valid_commentV15_eq, clean_final_textV15_eq,
    extractTextV15_eq, fun i elems => imageFilesAuxV15_eq i elems 0, likeCountOfV15_eq,
    fun texts => tagBucketsAuxV15_eq texts "", ?_⟩
  intro today bn i u card doc
  unfold buildRecordV15 buildRecordV17
  cases firstDigit card.ratingLabel.toList with
  | none => rfl
  | some d =>
    dsimp only [Except.map]
    simp only [extractTextV15_eq, clean_final_textV15_eq, parse_relative_dateV15_eq,
      likeCountOfV15_eq,
      show imageFilesV15 i card.imgButtons = imageFilesV17 i card.imgButtons from
        imageFilesAuxV15_eq i card.imgButtons 0,
      show tagBucketsV15 card.tagTexts = tagBuckets card.tagTexts from
        tagBucketsAuxV15_eq card.tagTexts ""]
    rfl

/-! ### Claim C10 -/

/-- C10: the final cleanup maps any candidate containing the owner-reply
phrase (case-insensitively) wholesale to the empty string and otherwise
returns the trimmed candidate unchanged, so no assembled record's exported
review text ever contains the phrase. -/
theorem c10_final_cleanup :
    (∀ s : String,
      pyContains "response from the owner" (pyLower (clean_final_text s)) = false) ∧
    (∀ s : String, clean_final_text s =
      if pyContains "response from the owner" (pyLower s) = true then "" else pyStrip s) ∧
    (∀ (today : Int) (bn : String) (i u : Nat) (card : Card) (doc : Doc),
      match buildRecordV17 today bn i u card doc with
      | Except.ok r => pyContains "response from the owner" (pyLower r.review) = false
      | Except.error _ => True) := by
  refine ⟨clean_final_text_no_phrase, clean_final_text_eq, ?_⟩
  intro today bn i u card doc
  cases hb : buildRecordV17 today bn i u card doc with
  | error e => trivial
  | ok r =>
    show pyContains "response from the owner" (pyLower r.review) = false
    rw [buildRecordV17_review today bn i u card doc r hb]
    exact clean_final_text_no_phrase _
